import Mathlib

/-!
Formal model (shallow embedding) of the Interview-PrepBot-AI mock-interview
application (src/app.py), together with theorems about its session lifecycle,
per-question timer, answer bookkeeping, LLM-wrapper retry behaviour, name
extraction, feedback caching, report export and reset behaviour.

Conventions of the embedding:
- wall-clock timestamps and durations are integer seconds (`Nat`); the app only
  ever uses `int(time.time() - t0)` differences with `now >= t0`;
- the external chat-completion call is modelled as an oracle parameter: either
  `Except.error e` (the Python call raised an exception whose string form is
  `e`) or `Except.ok content` (the call returned `content`);
- Streamlit `st.session_state` is the record `AppState`; one top-to-bottom
  script run ("re-render") first executes the sidebar widget assignments
  (`sidebarAssign`) and then at most one main-area handler.
-/

/-- ASCII approximation of the whitespace class used by Python `str.strip()` /
`str.split()` (space, tab, newline, carriage return, vertical tab, form feed). -/
def pyIsSpace (c : Char) : Bool :=
  c = ' ' || c = '\t' || c = '\n' || c = '\r' || c = '\x0b' || c = '\x0c'

/-- Python `s.strip()`: drop leading and trailing whitespace. -/
def pyStrip (s : String) : String :=
  String.mk (((s.toList.dropWhile pyIsSpace).reverse.dropWhile pyIsSpace).reverse)

/-- Worker for `pySplit`: accumulates the current word (reversed) in `acc`. -/
def pySplitGo : List Char → List Char → List String
  | [], acc => if acc.isEmpty then [] else [String.mk acc.reverse]
  | c :: cs, acc =>
    if pyIsSpace c then
      if acc.isEmpty then pySplitGo cs [] else String.mk acc.reverse :: pySplitGo cs []
    else pySplitGo cs (c :: acc)

/-- Python `s.split()` with no separator: split on whitespace runs, no empty parts. -/
def pySplit (s : String) : List String := pySplitGo s.toList []

/-- Worker for `pyTitle`; the Bool records whether the previous character was
alphabetic (ASCII approximation of Python "cased"). -/
def pyTitleGo : List Char → Bool → List Char
  | [], _ => []
  | c :: cs, prevAlpha =>
    (if c.isAlpha then (if prevAlpha then c.toLower else c.toUpper) else c)
      :: pyTitleGo cs c.isAlpha

/-- Python `s.title()`: first letter of every letter-run uppercased, the rest
lowercased (ASCII approximation; the app only titles strings of letters and
hyphens, on which this agrees with Python). -/
def pyTitle (s : String) : String := String.mk (pyTitleGo s.toList false)

/-- Checks whether `needle` occurs at the start of `hay`. -/
def subAt : List Char → List Char → Bool
  | [], _ => true
  | _ :: _, [] => false
  | a :: as, b :: bs => a == b && subAt as bs

/-- Checks whether `needle` occurs anywhere inside `hay` (Python `in` on str). -/
def containsSub (needle : List Char) : List Char → Bool
  | [] => needle.isEmpty
  | b :: bs => subAt needle (b :: bs) || containsSub needle bs

/-- The three difficulty levels of `DIFFICULTY_LEVELS` in app.py. -/
inductive Difficulty where
  | beginner
  | intermediate
  | advanced
deriving DecidableEq

/-- The three sidebar modes (radio buttons) of the app. -/
inductive Mode where
  | interview
  | practice
  | analytics
deriving DecidableEq

/-- `QUESTION_CATEGORIES["General"]` from app.py. -/
def generalBank : List String :=
  ["Tell me about yourself.",
   "Why are you interested in this position?",
   "What are your strengths and weaknesses?",
   "Where do you see yourself in 5 years?",
   "Why should we hire you?",
   "Describe a challenging situation you faced and how you handled it."]

/-- `QUESTION_CATEGORIES["Technical"]` from app.py. -/
def technicalBank : List String :=
  ["Explain object-oriented programming principles.",
   "What is the difference between SQL and NoSQL databases?",
   "Describe your experience with version control systems.",
   "How do you ensure code quality and maintainability?",
   "Explain the concept of API design and RESTful services.",
   "What are design patterns and can you give examples?"]

/-- `QUESTION_CATEGORIES["Behavioral"]` from app.py. -/
def behavioralBank : List String :=
  ["Tell me about a time you had to work with a difficult team member.",
   "Describe a project where you had to meet a tight deadline.",
   "Give an example of when you had to learn something new quickly.",
   "Tell me about a mistake you made and how you handled it.",
   "Describe a time when you had to explain something complex to a non-technical person."]

/-- `QUESTION_CATEGORIES["Problem Solving"]` from app.py. -/
def problemSolvingBank : List String :=
  ["How would you approach debugging a system that's running slowly?",
   "Design a system for a library management system.",
   "How would you handle a situation where a client is unhappy with deliverables?",
   "Explain how you would prioritize tasks when everything seems urgent.",
   "Walk me through your problem-solving process."]

/-- The `QUESTION_CATEGORIES` dictionary of app.py, as an association list. -/
def QUESTION_CATEGORIES : List (String × List String) :=
  [("General", generalBank),
   ("Technical", technicalBank),
   ("Behavioral", behavioralBank),
   ("Problem Solving", problemSolvingBank)]

/-- `adjusted_time = int(st.session_state.time_limit * time_multiplier)` from the
Start Interview handler, with `time_multiplier` 1.5 / 1.0 / 0.8 from
`DIFFICULTY_LEVELS`.  Computed here as the exact rational floor; for every base
offered by the sidebar selectbox (60, 90, 120, 180) Python float arithmetic
produces exactly the same integer. -/
def adjusted_time (base : Nat) : Difficulty → Nat
  | .beginner => base * 3 / 2
  | .intermediate => base
  | .advanced => base * 4 / 5

/-- One element of `st.session_state.answers`: the dict appended by the Submit,
Skip and timeout (auto-advance) handlers.  All three handlers write every key,
so each field is always present. -/
structure AnswerRecord where
  question : String
  display_question : String
  answer : String
  time_taken : Nat
  category : String
  difficulty : Difficulty
deriving DecidableEq

/-- The session-state variables of the app that the claims are about, with the
names used by `init_session_state` (Python `current_q` is `None` or an int:
`Option Nat`; likewise `start_time`, `candidate_name`, `feedback`). -/
structure AppState where
  mode : Mode
  candidate_name : Option String
  current_q : Option Nat
  questions : List String
  answers : List AnswerRecord
  time_limit : Nat
  start_time : Option Nat
  num_questions : Nat
  feedback : Option String
  category : String
  difficulty : Difficulty
  paused : Bool
  auto_refresh : Bool
deriving DecidableEq

/-- The defaults written by `init_session_state` in app.py. -/
def initState : AppState :=
  { mode := .interview
    candidate_name := none
    current_q := none
    questions := []
    answers := []
    time_limit := 90
    start_time := none
    num_questions := 5
    feedback := none
    category := "General"
    difficulty := .intermediate
    paused := false
    auto_refresh := true }

/-- Python truthiness of an optional string (`None` and `""` are falsy). -/
def nameTruthy : Option String → Bool
  | none => false
  | some s => s ≠ ""

/-- Python truthiness of an optional timestamp (`None` and `0` are falsy;
`time.time()` is never `0` in practice). -/
def timeTruthy : Option Nat → Bool
  | none => false
  | some t => t ≠ 0

/-- Python truthiness of the `feedback` session variable, as used by the guard
`if not st.session_state.feedback:` (line 1099): `None` and `""` are falsy. -/
def feedbackTruthy : Option String → Bool
  | none => false
  | some s => s ≠ ""

/-- Retry loop of `ask_chat` (app.py lines 106-119).  `call i` is the outcome of
the i-th `client.chat.completions.create` attempt.  Returns the result string
(`none` only for the unreachable `max_retries = 0` fall-through, where Python
would return `None`), the number of attempts made, and the number of
`time.sleep(1)` delays executed. -/
def askChatGo (call : Nat → Except String String) (max_retries : Nat) :
    Nat → Nat → Option String × Nat × Nat
  | _, 0 => (none, 0, 0)
  | attempt, fuel + 1 =>
    match call attempt with
    | .ok content => (some (pyStrip content), 1, 0)
    | .error e =>
      if attempt = max_retries - 1 then
        (some ("❌ Error after " ++ toString max_retries ++ " attempts: " ++ e), 1, 0)
      else
        let r := askChatGo call max_retries (attempt + 1) fuel
        (r.1, r.2.1 + 1, r.2.2 + 1)

/-- `ask_chat(prompt, model, max_retries)` from app.py.  `clientOk` models
whether the module-level `client` is non-None; the prompt itself does not
influence the control flow modelled here.  Result: the returned string, the
number of external attempts, and the number of 1-second inter-attempt delays. -/
def ask_chat (clientOk : Bool) (call : Nat → Except String String)
    (max_retries : Nat) : Option String × Nat × Nat :=
  if !clientOk then
    (some "❌ OpenAI client not available. Please check your API key and connection.", 0, 0)
  else askChatGo call max_retries 0 max_retries

/-- The first whitespace token of the extractor response, with every character
that is not a letter or a hyphen removed: `''.join(c for c in name.split()[0]
if c.isalpha() or c == '-')` (app.py line 138). -/
def cleanTok (w : String) : String :=
  String.mk (w.toList.filter (fun c => c.isAlpha || c == '-'))

/-- `extract_name(answer_text)` from app.py (lines 121-142).  `resp` is the
outcome of the inner `ask_chat` call: `.error` when it (or any statement of the
`try` block) raised, `.ok name` when it returned `name`.  An empty `name` is
falsy (`if name and ...`); a whitespace-only `name` makes `name.split()[0]`
raise IndexError, caught by the bare `except`. -/
def extract_name (answer_text : String) (resp : Except Unit String) : String :=
  if pyStrip answer_text = "" then "Candidate"
  else
    match resp with
    | .error _ => "Candidate"
    | .ok name =>
      if name = "" then "Candidate"
      else
        match pySplit name with
        | [] => "Candidate"
        | w :: ws =>
          if ws.length + 1 ≤ 2 then
            if cleanTok w = "" then "Candidate" else pyTitle (cleanTok w)
          else "Candidate"

/-- The dict returned by `calculate_score` in app.py. -/
structure ScoreResult where
  score : Nat
  feedback : String
deriving DecidableEq

/-- `calculate_score(answer, question, difficulty)` from app.py (lines 144-183).
The non-empty branch builds a prompt from `question` and `difficulty`, performs
one `ask_chat` call and post-processes the response; that whole branch is
abstracted as the oracle `scored` (the claims only concern the empty-answer
guard).  The second component counts invocations of the external evaluation
client. -/
def calculate_score (answer question : String) (difficulty : Difficulty)
    (scored : String → Difficulty → ScoreResult) : ScoreResult × Nat :=
  if pyStrip answer = "" then ({ score := 0, feedback := "No answer provided" }, 0)
  else (scored question difficulty, 1)

/-- Zero-padded two-digit rendering used by `format_time`. -/
def pad2 (n : Nat) : String :=
  if n < 10 then "0" ++ toString n else toString n

/-- `format_time(seconds)` from app.py: `MM:SS`. -/
def format_time (seconds : Nat) : String :=
  pad2 (seconds / 60) ++ ":" ++ pad2 (seconds % 60)

/-- The sidebar widget values of one script run: what the mode radio and (in
interview mode) the four settings selectboxes currently hold.  Streamlit
widgets keep their own state, so the same values are returned on every rerun
until the user changes them. -/
structure Widgets where
  mode : Mode
  num_questions : Nat
  time_limit : Nat
  category : String
  difficulty : Difficulty
  auto_refresh : Bool

/-- The sidebar portion of one script run (app.py lines 695-723): the mode is
always reassigned from the radio; when the mode is "Start Mock Interview" the
four settings (including `time_limit`) are reassigned from their selectboxes on
EVERY run, whether or not an interview is in progress. -/
def sidebarAssign (w : Widgets) (s : AppState) : AppState :=
  let s1 : AppState := { s with mode := w.mode }
  if w.mode = Mode.interview then
    { s1 with num_questions := w.num_questions, time_limit := w.time_limit,
              category := w.category, difficulty := w.difficulty,
              auto_refresh := w.auto_refresh }
  else s1

/-- The Start Interview button handler (app.py lines 875-896): shuffle the
category bank (`shuffled` is the shuffled copy), take `num_questions`, compute
`adjusted_time` from the current `time_limit`, and reinitialise the attempt. -/
def startInterview (shuffled : List String) (now : Nat) (s : AppState) : AppState :=
  { s with questions := shuffled.take s.num_questions
           current_q := some 0
           answers := []
           candidate_name := none
           start_time := some now
           feedback := none
           time_limit := adjusted_time s.time_limit s.difficulty
           paused := false }

/-- `elapsed = int(time.time() - st.session_state.start_time)` (line 923). -/
def elapsedAt (t0 now : Nat) : Nat := now - t0

/-- `remaining = max(0, st.session_state.time_limit - elapsed)` (line 924). -/
def remainingAt (time_limit t0 now : Nat) : Nat :=
  max 0 (time_limit - elapsedAt t0 now)

/-- One evaluation of the timer block (app.py lines 922-924): the block runs
only under `if st.session_state.start_time and not st.session_state.paused:`;
when it runs it displays the remaining time computed from the one stored
`start_time`.  `none` means the block (display and auto-advance check) is
skipped entirely. -/
def tickRemaining (s : AppState) (now : Nat) : Option Nat :=
  if timeTruthy s.start_time && !s.paused then
    some (remainingAt s.time_limit (s.start_time.getD 0) now)
  else none

/-- Whether the auto-advance (timeout) transition fires on a render at time
`now` (app.py line 946): the timer block ran and `remaining == 0`. -/
def autoAdvanceFires (s : AppState) (now : Nat) : Bool :=
  match tickRemaining s now with
  | some r => r = 0
  | none => false

/-- The Pause/Resume button handler (app.py lines 1010-1015): it only toggles
`paused`; `start_time` is not touched. -/
def pauseToggle (s : AppState) : AppState := { s with paused := !s.paused }

/-- `display_question` (app.py lines 904-906): prefix the candidate name for
questions after the first, when a (truthy) name is known. -/
def displayQuestion (s : AppState) (i : Nat) : String :=
  let q := s.questions.getD i ""
  if nameTruthy s.candidate_name && decide (0 < i) then
    s.candidate_name.getD "" ++ ", " ++ q
  else q

/-- The answer dict appended by all three transition handlers. -/
def mkRecord (s : AppState) (i : Nat) (ansText : String) (taken : Nat) : AnswerRecord :=
  { question := s.questions.getD i ""
    display_question := displayQuestion s i
    answer := ansText
    time_taken := taken
    category := s.category
    difficulty := s.difficulty }

/-- `int(time.time() - st.session_state.start_time) if st.session_state.start_time
else 0` — the `time_taken` of Submit and Skip. -/
def elapsedOr0 (s : AppState) (now : Nat) : Nat :=
  if timeTruthy s.start_time then now - s.start_time.getD 0 else 0

/-- The timeout auto-advance handler body (app.py lines 946-968): append a
record with the current draft text and `time_taken = time_limit`, extract the
name on the first question when the draft is non-blank, advance the index and
restamp `start_time`. -/
def timeoutAdvance (i : Nat) (draft : String) (now : Nat)
    (resp : Except Unit String) (s : AppState) : AppState :=
  let s1 : AppState := { s with answers := s.answers ++ [mkRecord s i draft s.time_limit] }
  let s2 : AppState :=
    if i = 0 ∧ pyStrip draft ≠ "" then
      { s1 with candidate_name := some (extract_name draft resp) }
    else s1
  { s2 with current_q := some (i + 1), start_time := some now }

/-- The Submit Answer handler (app.py lines 990-1008). -/
def submitAnswer (i : Nat) (text : String) (now : Nat)
    (resp : Except Unit String) (s : AppState) : AppState :=
  let s1 : AppState := { s with answers := s.answers ++ [mkRecord s i text (elapsedOr0 s now)] }
  let s2 : AppState :=
    if i = 0 ∧ pyStrip text ≠ "" then
      { s1 with candidate_name := some (extract_name text resp) }
    else s1
  { s2 with current_q := some (i + 1), start_time := some now }

/-- The Skip Question handler (app.py lines 1018-1030): like Submit with the
answer text forced to `""` and no name extraction. -/
def skipQuestion (i : Nat) (now : Nat) (s : AppState) : AppState :=
  let s1 : AppState := { s with answers := s.answers ++ [mkRecord s i "" (elapsedOr0 s now)] }
  { s1 with current_q := some (i + 1), start_time := some now }

/-- The question-advancing user/timer events of an attempt. -/
inductive AEvent where
  | submit (text : String) (now : Nat) (resp : Except Unit String)
  | skip (now : Nat)
  | timeout (draft : String) (now : Nat) (resp : Except Unit String)

/-- The index of the question currently in progress, when the script run is in
the `elif st.session_state.current_q < len(st.session_state.questions)` branch
(app.py line 899). -/
def inProgress (s : AppState) : Option Nat :=
  match s.current_q with
  | some i => if i < s.questions.length then some i else none
  | none => none

/-- Whether the event's handler actually runs: Submit and Skip buttons exist
exactly on in-progress renders; the timeout transition additionally requires
the timer block to have run with `remaining == 0`. -/
def eventEnabled (s : AppState) : AEvent → Bool
  | .submit _ _ _ => (inProgress s).isSome
  | .skip _ => (inProgress s).isSome
  | .timeout _ now _ => (inProgress s).isSome && autoAdvanceFires s now

/-- Apply one event to the session state (no-op when its handler does not run). -/
def applyEvent (e : AEvent) (s : AppState) : AppState :=
  match inProgress s with
  | none => s
  | some i =>
    match e with
    | .submit text now resp => submitAnswer i text now resp s
    | .skip now => skipQuestion i now s
    | .timeout draft now resp =>
      if autoAdvanceFires s now then timeoutAdvance i draft now resp s else s

/-- Run a sequence of events. -/
def runEvents (es : List AEvent) (s : AppState) : AppState :=
  es.foldl (fun t e => applyEvent e t) s

/-- Whether processing event `e` in state `s` performs a candidate-name
extraction (the `if q_index == 0 and text.strip():` guard of the Submit and
timeout handlers; Skip never extracts). -/
def extractsIn (s : AppState) : AEvent → Bool
  | .submit text _ _ =>
    (inProgress s == some 0) && decide (pyStrip text ≠ "")
  | .skip _ => false
  | .timeout draft now _ =>
    (inProgress s == some 0) && autoAdvanceFires s now && decide (pyStrip draft ≠ "")

/-- Number of candidate-name extraction attempts made while processing `es`. -/
def extractCount (es : List AEvent) (s : AppState) : Nat :=
  match es with
  | [] => 0
  | e :: rest => (if extractsIn s e then 1 else 0) + extractCount rest (applyEvent e s)

/-- `st.session_state.current_q` read as a number (it is `some i` whenever an
attempt has started). -/
def currentIdx (s : AppState) : Nat := (s.current_q).getD 0

/-- The guard of the completed-results branch (app.py line 1033):
`st.session_state.current_q >= len(st.session_state.questions) and
st.session_state.answers` (reached only when `current_q` is not None). -/
def completedBranch (s : AppState) : Bool :=
  match s.current_q with
  | none => false
  | some i => decide (s.questions.length ≤ i) && !s.answers.isEmpty

/-- The New Interview reset handler (app.py lines 1167-1178): `current_q`,
`candidate_name`, `start_time`, `feedback` become `None`; `paused` becomes
`False`; `questions` and `answers` become `[]`; nothing else is touched. -/
def resetHandler (s : AppState) : AppState :=
  { s with current_q := none
           candidate_name := none
           start_time := none
           feedback := none
           paused := false
           questions := []
           answers := [] }

/-- One render of the completed-results branch reaching the feedback section
(app.py lines 1099-1149): an evaluation request (returning `resp`) is issued
iff the stored feedback is falsy (`if not st.session_state.feedback:`), and its
result is stored.  The second component counts evaluation requests. -/
def renderCompleted (resp : String) (s : AppState) : AppState × Nat :=
  if feedbackTruthy s.feedback then (s, 0)
  else ({ s with feedback := some resp }, 1)

/-- Total number of transcript-evaluation requests issued by a sequence of
re-renders of the completed screen, the i-th render's request returning the
i-th element of `resps`. -/
def feedbackCalls (resps : List String) (s : AppState) : Nat :=
  match resps with
  | [] => 0
  | r :: rest => (renderCompleted r s).2 + feedbackCalls rest (renderCompleted r s).1

/-- `sum(1 for a in answers if a.get('answer', '').strip())`. -/
def answeredCount (answers : List AnswerRecord) : Nat :=
  (answers.filter (fun a => pyStrip a.answer ≠ "")).length

/-- `total_time = sum(a.get('time_taken', 0) for a in answers)`. -/
def totalTime (answers : List AnswerRecord) : Nat :=
  (answers.map (fun a => a.time_taken)).sum

/-- Rendering of `{x*100:.0f}` for the completion rate.  Python formats the
float with round-half-to-even; this exact rational rounding agrees on every
value appearing in the theorems below (no exact half arises there). -/
def pctStr (a n : Nat) : String := toString ((200 * a + n) / (2 * n))

/-- `candidate_name or 'Anonymous'`. -/
def nameOrAnonymous (name : Option String) : String :=
  if nameTruthy name then name.getD "" else "Anonymous"

/-- `'='*50`, the separator line ending each question block of the report. -/
def eqLine : String := String.mk (List.replicate 50 '=')

/-- Models `ans.get('answer', '[No answer provided]')` (app.py line 1218).  All
three record-producing handlers always write the `'answer'` key, so over
`AnswerRecord` the lookup always succeeds and the default placeholder can never
be produced — even when the stored answer is the empty string. -/
def answerOrPlaceholder (ans : AnswerRecord) : String := ans.answer

/-- One question block of the full report (app.py lines 1211-1221), for the
1-based index `idx`. -/
def questionBlock (tl : Nat) (idx : Nat) (ans : AnswerRecord) : String :=
  "\nQ" ++ toString idx ++ ": " ++ ans.question
    ++ "\nTime Allocated: " ++ toString tl
    ++ "s\nTime Used: " ++ toString ans.time_taken
    ++ "s\n\nYour Answer:\n" ++ answerOrPlaceholder ans
    ++ "\n\n" ++ eqLine ++ "\n"

/-- The selectbox label of each difficulty level, as interpolated into the
report. -/
def difficultyStr : Difficulty → String
  | .beginner => "Beginner"
  | .intermediate => "Intermediate"
  | .advanced => "Advanced"

/-- The header of `results_text` (app.py lines 1195-1209).  `dateStr` stands
for `datetime.now().strftime(...)`. -/
def reportHeader (dateStr : String) (s : AppState) : String :=
  "\nAI MOCK INTERVIEW RESULTS\n========================\nDate: " ++ dateStr
    ++ "\nCandidate: " ++ nameOrAnonymous s.candidate_name
    ++ "\nCategory: " ++ s.category
    ++ "\nDifficulty: " ++ difficultyStr s.difficulty
    ++ "\nTotal Questions: " ++ toString s.answers.length
    ++ "\nQuestions Answered: " ++ toString (answeredCount s.answers)
    ++ "\nCompletion Rate: " ++ pctStr (answeredCount s.answers) s.answers.length
    ++ "%\nTotal Time: " ++ format_time (totalTime s.answers)
    ++ "\n\nQUESTIONS & ANSWERS\n==================\n"

/-- The footer of `results_text` (app.py lines 1223-1232): `feedback or
'Feedback not available - please check your OpenAI connection'`. -/
def reportFooter (feedback : Option String) : String :=
  "\n\nAI COACH FEEDBACK\n================\n"
    ++ (if feedbackTruthy feedback then feedback.getD "" else
          "Feedback not available - please check your OpenAI connection")
    ++ "\n\nEND OF REPORT\n=============\nGenerated by AI Mock Interview Bot\n"

/-- The question blocks of the report, in presentation order (1-based indices,
as `enumerate(answers, 1)`). -/
def questionBlocks (tl : Nat) (answers : List AnswerRecord) : List String :=
  (answers.enumFrom 1).map (fun p => questionBlock tl p.1 p.2)

/-- The `results_text += ...` loop of app.py lines 1211-1221 as a fold. -/
def blocksFold (tl : Nat) (answers : List AnswerRecord) : String :=
  (answers.enumFrom 1).foldl (fun acc p => acc ++ questionBlock tl p.1 p.2) ""

/-- The complete full-report export `results_text` for a completed session. -/
def resultsText (dateStr : String) (s : AppState) : String :=
  reportHeader dateStr s ++ blocksFold s.time_limit s.answers ++ reportFooter s.feedback

/-! ## Helper lemmas -/

/-- A string all of whose characters are Python whitespace strips to `""`. -/
theorem pyStrip_of_all_space {s : String} (h : s.toList.all pyIsSpace = true) :
    pyStrip s = "" := by
  unfold pyStrip
  have h1 : s.toList.dropWhile pyIsSpace = [] := by
    rw [List.dropWhile_eq_nil_iff]
    intro x hx
    exact List.all_eq_true.mp h x hx
  rw [h1]
  rfl

/-- `inProgress` unpacked: the branch at app.py line 899 is taken with index `i`
iff `current_q` is `i` and `i` is a valid question index. -/
theorem inProgress_eq_some {s : AppState} {i : Nat} (h : inProgress s = some i) :
    s.current_q = some i ∧ i < s.questions.length := by
  unfold inProgress at h
  cases hq : s.current_q with
  | none => rw [hq] at h; simp at h
  | some j =>
    rw [hq] at h
    by_cases hl : j < s.questions.length
    · simp only [hl, if_true] at h
      cases h
      exact ⟨rfl, hl⟩
    · simp only [hl, if_false] at h
      simp at h

/-! ## Claim C7: evaluation-call retry behaviour -/

/-- Claim C7: for every prompt, `ask_chat` makes at most 3 attempts, with one
1-second delay between each pair of consecutive attempts, always returns a
string to the caller (never propagates an exception from the external call),
and when all 3 attempts fail it returns the descriptive failure string.  Also,
with the client unavailable it returns the fixed failure string after 0
attempts. -/
theorem C7_retry_bounded (call : Nat → Except String String) :
    ((ask_chat true call 3).1.isSome = true)
  ∧ ((ask_chat true call 3).2.1 ≤ 3)
  ∧ ((ask_chat true call 3).2.2 + 1 = (ask_chat true call 3).2.1)
  ∧ (ask_chat false call 3
      = (some "❌ OpenAI client not available. Please check your API key and connection.", 0, 0))
  ∧ (∀ e0 e1 e2, call 0 = .error e0 → call 1 = .error e1 → call 2 = .error e2 →
      ask_chat true call 3 = (some ("❌ Error after " ++ toString 3 ++ " attempts: " ++ e2), 3, 2)) := by
  refine ⟨?_, ?_, ?_, rfl, ?_⟩
  · rcases h0 : call 0 with e0 | s0 <;> rcases h1 : call 1 with e1 | s1 <;>
      rcases h2 : call 2 with e2 | s2 <;>
      simp [ask_chat, askChatGo, h0, h1, h2]
  · rcases h0 : call 0 with e0 | s0 <;> rcases h1 : call 1 with e1 | s1 <;>
      rcases h2 : call 2 with e2 | s2 <;>
      simp [ask_chat, askChatGo, h0, h1, h2]
  · rcases h0 : call 0 with e0 | s0 <;> rcases h1 : call 1 with e1 | s1 <;>
      rcases h2 : call 2 with e2 | s2 <;>
      simp [ask_chat, askChatGo, h0, h1, h2]
  · intro e0 e1 e2 h0 h1 h2
    simp [ask_chat, askChatGo, h0, h1, h2]

/-- A call oracle that fails on every attempt. -/
def c7call : Nat → Except String String
  | 0 => Except.error "connection reset"
  | 1 => Except.error "connection reset"
  | _ => Except.error "rate limited"

/-- Witness for C7: with all three attempts failing, `ask_chat` returns the
failure string after exactly 3 attempts and 2 delays. -/
theorem C7_retry_bounded_witness :
    ask_chat true c7call 3
      = (some ("❌ Error after " ++ toString 3 ++ " attempts: " ++ "rate limited"), 3, 2) :=
  (C7_retry_bounded c7call).2.2.2.2 "connection reset" "connection reset" "rate limited"
    rfl rfl rfl

/-! ## Claim C9: Reset clears attempt state, preserves configuration -/

/-- Claim C9: the New Interview reset handler returns `current_q`, `questions`,
`answers`, `candidate_name`, `start_time` (question_start_time), `feedback` and
`paused` to their `init_session_state` defaults, and leaves `mode` and the
configuration fields (`category`, `difficulty`, `num_questions`, `time_limit`)
unchanged. -/
theorem C9_reset_frame (s : AppState) :
    (resetHandler s).current_q = initState.current_q
  ∧ (resetHandler s).questions = initState.questions
  ∧ (resetHandler s).answers = initState.answers
  ∧ (resetHandler s).candidate_name = initState.candidate_name
  ∧ (resetHandler s).start_time = initState.start_time
  ∧ (resetHandler s).feedback = initState.feedback
  ∧ (resetHandler s).paused = initState.paused
  ∧ (resetHandler s).mode = s.mode
  ∧ (resetHandler s).category = s.category
  ∧ (resetHandler s).difficulty = s.difficulty
  ∧ (resetHandler s).num_questions = s.num_questions
  ∧ (resetHandler s).time_limit = s.time_limit
  ∧ (resetHandler s).auto_refresh = s.auto_refresh := by
  refine ⟨rfl, rfl, rfl, rfl, rfl, rfl, rfl, rfl, rfl, rfl, rfl, rfl, rfl⟩

/-! ## Claim C10: empty answers are scored 0 without an external call -/

/-- Claim C10: for every question and difficulty, when the answer is empty or
whitespace-only, `calculate_score` returns score 0 with feedback "No answer
provided" and performs no call to the external evaluation client. -/
theorem C10_empty_answer_short_circuit (answer question : String) (d : Difficulty)
    (scored : String → Difficulty → ScoreResult)
    (h : answer.toList.all pyIsSpace = true) :
    calculate_score answer question d scored
      = ({ score := 0, feedback := "No answer provided" }, 0) := by
  simp [calculate_score, pyStrip_of_all_space h]

/-- Witness for C10 at the whitespace-only answer `" \t "`. -/
theorem C10_empty_answer_short_circuit_witness :
    (" \t ".toList.all pyIsSpace = true)
  ∧ calculate_score " \t " "Why should we hire you?" Difficulty.beginner
      (fun _ _ => { score := 5, feedback := "parsed" })
      = ({ score := 0, feedback := "No answer provided" }, 0) :=
  ⟨by decide,
   C10_empty_answer_short_circuit " \t " "Why should we hire you?" Difficulty.beginner
     (fun _ _ => { score := 5, feedback := "parsed" }) (by decide)⟩

/-! ## Claim C2: pause/resume does not preserve remaining time (code bug) -/

/-- An in-progress state: limit 90s, question timer stamped at t = 10. -/
def c2state : AppState :=
  { initState with time_limit := 90, current_q := some 0,
                   questions := ["Tell me about yourself."], start_time := some 10 }

/-- Claim C2 is violated by the code: with 45s remaining the user pauses, 10
real seconds pass, and the user resumes; the Pause/Resume handler only toggles
`paused` and never shifts `start_time`, so the first tick after resume computes
`remaining` from the untouched `start_time` and reports 35s, not 45s. -/
theorem C2_pause_resume_jump :
    tickRemaining c2state 55 = some 45
  ∧ (pauseToggle c2state).paused = true
  ∧ tickRemaining (pauseToggle c2state) 65 = none
  ∧ (pauseToggle (pauseToggle c2state)).paused = false
  ∧ (pauseToggle (pauseToggle c2state)).start_time = c2state.start_time
  ∧ tickRemaining (pauseToggle (pauseToggle c2state)) 65 = some 35
  ∧ (35 : Nat) ≠ 45 := by
  refine ⟨rfl, rfl, rfl, rfl, rfl, rfl, by decide⟩

/-! ## Claim C8: nothing fires and nothing decreases while paused -/

/-- Claim C8: while `paused` is true the timer block of the render is skipped
entirely, so the auto-advance (timeout) transition never fires, the timeout
event is never enabled (and is a no-op), and any two tick evaluations report
the same (absent) remaining-time display. -/
theorem C8_paused_freezes (s : AppState) (t1 t2 : Nat) (h : s.paused = true) :
    tickRemaining s t1 = none
  ∧ tickRemaining s t1 = tickRemaining s t2
  ∧ autoAdvanceFires s t1 = false
  ∧ (∀ draft resp, eventEnabled s (AEvent.timeout draft t1 resp) = false
        ∧ applyEvent (AEvent.timeout draft t1 resp) s = s) := by
  have hf1 : tickRemaining s t1 = none := by simp [tickRemaining, h]
  have hf2 : tickRemaining s t2 = none := by simp [tickRemaining, h]
  have hfire : autoAdvanceFires s t1 = false := by
    unfold autoAdvanceFires
    rw [hf1]
  refine ⟨hf1, hf1.trans hf2.symm, hfire, ?_⟩
  intro draft resp
  constructor
  · simp [eventEnabled, hfire]
  · unfold applyEvent
    cases hip : inProgress s with
    | none => rfl
    | some i => simp [hfire]

/-- A paused in-progress state for the C8 witness. -/
def c8state : AppState :=
  { initState with paused := true, current_q := some 0,
                   questions := ["Tell me about yourself."],
                   time_limit := 90, start_time := some 10 }

/-- Witness for C8: in a concrete paused state the tick reports nothing, two
ticks agree, and the timeout never fires. -/
theorem C8_paused_freezes_witness :
    c8state.paused = true
  ∧ tickRemaining c8state 200 = none
  ∧ tickRemaining c8state 200 = tickRemaining c8state 500
  ∧ autoAdvanceFires c8state 200 = false :=
  ⟨rfl, (C8_paused_freezes c8state 200 500 rfl).1,
    (C8_paused_freezes c8state 200 500 rfl).2.1,
    (C8_paused_freezes c8state 200 500 rfl).2.2.1⟩

/-! ## Claim C1: the adjusted time limit is not fixed for the attempt -/

/-- The sidebar widget selections for the C1 scenario: base time 60s,
Beginner difficulty (multiplier 1.5). -/
def c1widgets : Widgets :=
  { mode := Mode.interview, num_questions := 3, time_limit := 60,
    category := "General", difficulty := Difficulty.beginner, auto_refresh := true }

/-- Claim C1 is false on the code: the Start handler stores
`adjusted_time = int(60 * 1.5) = 90` into `time_limit`, but the very next
re-render's sidebar pass (`st.session_state.time_limit = st.selectbox(...)`,
app.py line 710) overwrites `time_limit` back to the base value 60, so the
timeout check at elapsed 60s already reads remaining 0 and fires auto-advance,
where the claimed fixed value floor(60 * 1.5) = 90 would leave 30s. -/
theorem C1_counterexample_sidebar_overwrite :
    ((startInterview generalBank 100 (sidebarAssign c1widgets initState)).time_limit = 90)
  ∧ (adjusted_time 60 Difficulty.beginner = 90)
  ∧ ((sidebarAssign c1widgets
        (startInterview generalBank 100 (sidebarAssign c1widgets initState))).time_limit = 60)
  ∧ (tickRemaining (sidebarAssign c1widgets
        (startInterview generalBank 100 (sidebarAssign c1widgets initState))) 160 = some 0)
  ∧ (autoAdvanceFires (sidebarAssign c1widgets
        (startInterview generalBank 100 (sidebarAssign c1widgets initState))) 160 = true)
  ∧ ((60 : Nat) ≠ 90) := by
  refine ⟨rfl, rfl, rfl, rfl, rfl, by decide⟩

/-- Claim C1 (amended): `adjusted_time = floor(base * multiplier)` is computed
once by Start from the sidebar base value, but every re-render of the interview
screen first re-runs the sidebar, which overwrites `time_limit` with the
sidebar's base value; the in-question transition handlers and the Pause button
never touch `time_limit`.  Hence the value read by every timeout check and
history ratio on renders after Start is the (fixed) base value, not the
adjusted one. -/
theorem C1_amended_base_read (w : Widgets) (s s2 : AppState) (shuffled : List String)
    (now : Nat) (hm : w.mode = Mode.interview) :
    (startInterview shuffled now (sidebarAssign w s)).time_limit
        = adjusted_time w.time_limit w.difficulty
  ∧ (sidebarAssign w s2).time_limit = w.time_limit
  ∧ (∀ e, (applyEvent e s2).time_limit = s2.time_limit)
  ∧ (pauseToggle s2).time_limit = s2.time_limit := by
  refine ⟨by simp [startInterview, sidebarAssign, hm], by simp [sidebarAssign, hm], ?_, rfl⟩
  intro e
  unfold applyEvent
  cases hip : inProgress s2 with
  | none => rfl
  | some i =>
    cases e with
    | submit text now2 resp =>
      unfold submitAnswer
      by_cases hc : i = 0 ∧ pyStrip text ≠ "" <;> simp [hc]
    | skip now2 => rfl
    | timeout draft now2 resp =>
      by_cases hfi : autoAdvanceFires s2 now2
      · unfold timeoutAdvance
        by_cases hc : i = 0 ∧ pyStrip draft ≠ "" <;> simp [hfi, hc]
      · simp [hfi]

/-- Witness for C1 (amended) at the concrete Beginner/60s scenario. -/
theorem C1_amended_base_read_witness :
    (startInterview generalBank 100 (sidebarAssign c1widgets initState)).time_limit
        = adjusted_time 60 Difficulty.beginner
  ∧ (sidebarAssign c1widgets c2state).time_limit = 60 :=
  ⟨(C1_amended_base_read c1widgets initState c2state generalBank 100 rfl).1,
   (C1_amended_base_read c1widgets initState c2state generalBank 100 rfl).2.1⟩

/-! ## Claim C5: feedback caching is guarded by truthiness, not by None -/

/-- Renders after a truthy feedback value is stored issue no further
evaluation requests (the guard `if not st.session_state.feedback:` fails). -/
theorem feedbackCalls_zero_of_truthy (resps : List String) :
    ∀ t : AppState, feedbackTruthy t.feedback = true → feedbackCalls resps t = 0 := by
  induction resps with
  | nil => intro t _; rfl
  | cons r rest ih =>
    intro t h
    unfold feedbackCalls renderCompleted
    simp only [h, if_true]
    rw [Nat.zero_add]
    exact ih t h

/-- A completed session whose feedback has not been generated yet. -/
def c5pending : AppState :=
  { initState with current_q := some 1,
                   questions := ["Tell me about yourself."],
                   answers := [{ question := "Tell me about yourself.",
                                 display_question := "Tell me about yourself.",
                                 answer := "I am Alex.", time_taken := 20,
                                 category := "General",
                                 difficulty := .intermediate }],
                   feedback := none }

/-- Claim C5 is false on the code: the caching guard is Python truthiness
(`if not st.session_state.feedback:`), so when the first evaluation request
returns the empty string, the stored feedback is falsy and the next re-render
of the Completed screen issues a second evaluation request. -/
theorem C5_counterexample_empty_feedback :
    (renderCompleted "" c5pending).2 = 1
  ∧ (renderCompleted "" c5pending).1.feedback = some ""
  ∧ (renderCompleted "Great job" (renderCompleted "" c5pending).1).2 = 1
  ∧ feedbackCalls ["", "Great job"] c5pending = 2
  ∧ (2 : Nat) ≠ 1 := by
  refine ⟨rfl, rfl, rfl, rfl, by decide⟩

/-- Claim C5 (amended): the first render of the Completed screen issues exactly
one evaluation request and stores its response; provided that response is
non-empty (any non-empty string, including the wrapper's failure strings), no
later re-render issues another request until Reset, and Reset clears the stored
feedback back to None. -/
theorem C5_amended_nonempty_cached (s : AppState) (resp : String) (rest : List String)
    (hne : resp ≠ "") (hf : s.feedback = none) :
    (renderCompleted resp s).2 = 1
  ∧ (renderCompleted resp s).1.feedback = some resp
  ∧ feedbackCalls rest (renderCompleted resp s).1 = 0
  ∧ feedbackCalls (resp :: rest) s = 1
  ∧ (∀ t, (resetHandler t).feedback = none) := by
  have hguard : feedbackTruthy s.feedback = false := by rw [hf]; rfl
  have h1 : renderCompleted resp s = ({ s with feedback := some resp }, 1) := by
    unfold renderCompleted
    simp [hguard]
  have htru : feedbackTruthy ({ s with feedback := some resp} : AppState).feedback = true := by
    simp [feedbackTruthy, hne]
  refine ⟨by rw [h1], by rw [h1], ?_, ?_, fun t => rfl⟩
  · rw [h1]
    exact feedbackCalls_zero_of_truthy rest _ htru
  · unfold feedbackCalls
    rw [h1]
    have h0 := feedbackCalls_zero_of_truthy rest _ htru
    simp [h0]

/-- Witness for C5 (amended): a non-empty first response is cached and three
re-renders issue exactly one request in total. -/
theorem C5_amended_nonempty_cached_witness :
    feedbackCalls ["Solid performance overall.", "x", "y"] c5pending = 1 :=
  (C5_amended_nonempty_cached c5pending "Solid performance overall." ["x", "y"]
    (by decide) rfl).2.2.2.1

/-! ## Claim C3: full-report blocks (empty answers are NOT the placeholder) -/

/-- The `results_text += ...` loop equals the concatenation of the per-question
blocks. -/
theorem blocksFold_eq_join (tl : Nat) (answers : List AnswerRecord) :
    blocksFold tl answers = String.join (questionBlocks tl answers) := by
  unfold blocksFold questionBlocks String.join
  rw [List.foldl_map]

/-- The block list has one entry per answer record. -/
theorem questionBlocks_length (tl : Nat) (answers : List AnswerRecord) :
    (questionBlocks tl answers).length = answers.length := by
  unfold questionBlocks
  rw [List.length_map, List.enumFrom_length]

/-- Claim C3 (amended): the full report is the header, then exactly one block
per answer record in the original presentation order (the i-th block is
rendered from the i-th record, with 1-based numbering), then the footer; each
block embeds the recorded answer text verbatim via
`ans.get('answer', '[No answer provided]')`, which over the records this app
produces (the key is always written) returns the stored text even when it is
the empty string, never the placeholder. -/
theorem C3_amended_blocks (dateStr : String) (s : AppState) (dRec : AnswerRecord) :
    resultsText dateStr s
      = reportHeader dateStr s
        ++ String.join (questionBlocks s.time_limit s.answers)
        ++ reportFooter s.feedback
  ∧ (questionBlocks s.time_limit s.answers).length = s.answers.length
  ∧ (∀ i, i < s.answers.length →
        (questionBlocks s.time_limit s.answers).getD i ""
          = questionBlock s.time_limit (1 + i) (s.answers.getD i dRec))
  ∧ (∀ ans : AnswerRecord, answerOrPlaceholder ans = ans.answer) := by
  refine ⟨?_, questionBlocks_length s.time_limit s.answers, ?_, fun ans => rfl⟩
  · unfold resultsText
    rw [blocksFold_eq_join]
  · intro i hi
    have hi2 : i < (questionBlocks s.time_limit s.answers).length := by
      rw [questionBlocks_length]; exact hi
    have hi3 : i < (s.answers.enumFrom 1).length := by
      rw [List.enumFrom_length]; exact hi
    rw [List.getD_eq_getElem _ _ hi2, List.getD_eq_getElem _ _ hi]
    unfold questionBlocks
    simp [List.getElem_enumFrom]

/-- A record with an empty recorded answer (the user skipped or submitted
nothing), as appended by the handlers. -/
def c3rec : AnswerRecord :=
  { question := "Tell me about yourself."
    display_question := "Tell me about yourself."
    answer := ""
    time_taken := 90
    category := "General"
    difficulty := .intermediate }

/-- A completed one-question session whose only answer is empty, with cached
feedback. -/
def c3state : AppState :=
  { initState with current_q := some 1,
                   questions := ["Tell me about yourself."],
                   answers := [c3rec],
                   feedback := some "Good effort overall." }

set_option maxRecDepth 8000 in
/-- Claim C3 is false on the code for empty answers: in a completed session
whose recorded answer text is the empty string, the exported full report does
not contain the placeholder "[No answer provided]" anywhere — `dict.get`
returns the present (empty) value, and the placeholder default is dead for
records produced by this app. -/
theorem C3_counterexample_no_placeholder :
    c3state.answers.map (fun a => a.answer) = [""]
  ∧ containsSub "[No answer provided]".toList
      (resultsText "2026-10-12 00:00:00" c3state).toList = false := by
  refine ⟨rfl, by decide⟩

/-- Witness for C3 (amended) at the concrete completed session: one block,
rendered from the (empty-answered) record. -/
theorem C3_amended_blocks_witness :
    (0 < c3state.answers.length)
  ∧ (questionBlocks c3state.time_limit c3state.answers).getD 0 ""
      = questionBlock c3state.time_limit (1 + 0) (c3state.answers.getD 0 c3rec) :=
  ⟨by decide,
   (C3_amended_blocks "2026-10-12 00:00:00" c3state c3rec).2.2.1 0 (by decide)⟩

/-! ## Claim C4: one record per transition; completed iff index = question count -/

/-- Field effects of the Submit handler. -/
theorem submitAnswer_proj (i : Nat) (text : String) (now : Nat)
    (resp : Except Unit String) (s : AppState) :
    (submitAnswer i text now resp s).answers
        = s.answers ++ [mkRecord s i text (elapsedOr0 s now)]
  ∧ (submitAnswer i text now resp s).current_q = some (i + 1)
  ∧ (submitAnswer i text now resp s).questions = s.questions := by
  unfold submitAnswer
  by_cases hc : i = 0 ∧ pyStrip text ≠ "" <;> simp [hc]

/-- Field effects of the Skip handler. -/
theorem skipQuestion_proj (i : Nat) (now : Nat) (s : AppState) :
    (skipQuestion i now s).answers = s.answers ++ [mkRecord s i "" (elapsedOr0 s now)]
  ∧ (skipQuestion i now s).current_q = some (i + 1)
  ∧ (skipQuestion i now s).questions = s.questions := by
  unfold skipQuestion
  exact ⟨rfl, rfl, rfl⟩

/-- Field effects of the timeout (auto-advance) handler. -/
theorem timeoutAdvance_proj (i : Nat) (draft : String) (now : Nat)
    (resp : Except Unit String) (s : AppState) :
    (timeoutAdvance i draft now resp s).answers
        = s.answers ++ [mkRecord s i draft s.time_limit]
  ∧ (timeoutAdvance i draft now resp s).current_q = some (i + 1)
  ∧ (timeoutAdvance i draft now resp s).questions = s.questions := by
  unfold timeoutAdvance
  by_cases hc : i = 0 ∧ pyStrip draft ≠ "" <;> simp [hc]

/-- Reduction of `applyEvent` on an in-progress Submit. -/
theorem applyEvent_submit_eq {s : AppState} {i : Nat} (hip : inProgress s = some i)
    (text : String) (now : Nat) (resp : Except Unit String) :
    applyEvent (AEvent.submit text now resp) s = submitAnswer i text now resp s := by
  unfold applyEvent
  rw [hip]

/-- Reduction of `applyEvent` on an in-progress Skip. -/
theorem applyEvent_skip_eq {s : AppState} {i : Nat} (hip : inProgress s = some i)
    (now : Nat) :
    applyEvent (AEvent.skip now) s = skipQuestion i now s := by
  unfold applyEvent
  rw [hip]

/-- Reduction of `applyEvent` on an in-progress timeout. -/
theorem applyEvent_timeout_eq {s : AppState} {i : Nat} (hip : inProgress s = some i)
    (draft : String) (now : Nat) (resp : Except Unit String) :
    applyEvent (AEvent.timeout draft now resp) s
      = if autoAdvanceFires s now then timeoutAdvance i draft now resp s else s := by
  unfold applyEvent
  rw [hip]

/-- Reduction of `applyEvent` outside the in-progress branch. -/
theorem applyEvent_none_eq {s : AppState} (hip : inProgress s = none) (e : AEvent) :
    applyEvent e s = s := by
  unfold applyEvent
  rw [hip]

/-- When the event's handler actually runs, exactly one record is appended,
the index advances by exactly one, and the question list is unchanged. -/
theorem applyEvent_delta {s : AppState} {e : AEvent} (h : eventEnabled s e = true) :
    (applyEvent e s).answers.length = s.answers.length + 1
  ∧ (applyEvent e s).current_q = some (currentIdx s + 1)
  ∧ (applyEvent e s).questions = s.questions := by
  cases e with
  | submit text now resp =>
    unfold eventEnabled at h
    rw [Option.isSome_iff_exists] at h
    obtain ⟨i, hip⟩ := h
    have hidx : currentIdx s = i := by
      rw [currentIdx, (inProgress_eq_some hip).1]
      rfl
    rw [applyEvent_submit_eq hip, hidx]
    have hp := submitAnswer_proj i text now resp s
    exact ⟨by rw [hp.1]; simp, hp.2.1, hp.2.2⟩
  | skip now =>
    unfold eventEnabled at h
    rw [Option.isSome_iff_exists] at h
    obtain ⟨i, hip⟩ := h
    have hidx : currentIdx s = i := by
      rw [currentIdx, (inProgress_eq_some hip).1]
      rfl
    rw [applyEvent_skip_eq hip, hidx]
    have hp := skipQuestion_proj i now s
    exact ⟨by rw [hp.1]; simp, hp.2.1, hp.2.2⟩
  | timeout draft now resp =>
    unfold eventEnabled at h
    rw [Bool.and_eq_true, Option.isSome_iff_exists] at h
    obtain ⟨⟨i, hip⟩, hfi⟩ := h
    have hidx : currentIdx s = i := by
      rw [currentIdx, (inProgress_eq_some hip).1]
      rfl
    rw [applyEvent_timeout_eq hip, if_pos hfi, hidx]
    have hp := timeoutAdvance_proj i draft now resp s
    exact ⟨by rw [hp.1]; simp, hp.2.1, hp.2.2⟩

/-- When the event's handler does not run, nothing changes. -/
theorem applyEvent_noop {s : AppState} {e : AEvent} (h : eventEnabled s e = false) :
    applyEvent e s = s := by
  cases e with
  | submit text now resp =>
    unfold eventEnabled at h
    cases hip : inProgress s with
    | none => exact applyEvent_none_eq hip _
    | some i => rw [hip] at h; simp at h
  | skip now =>
    unfold eventEnabled at h
    cases hip : inProgress s with
    | none => exact applyEvent_none_eq hip _
    | some i => rw [hip] at h; simp at h
  | timeout draft now resp =>
    unfold eventEnabled at h
    cases hip : inProgress s with
    | none => exact applyEvent_none_eq hip _
    | some i =>
      rw [hip] at h
      simp only [Option.isSome_some, Bool.true_and] at h
      rw [applyEvent_timeout_eq hip, if_neg (by rw [h]; exact Bool.false_ne_true)]

/-- The attempt invariant of the session-state machine: the attempt has
started, one record exists per elapsed question, the index never exceeds the
question count, and the question list is non-empty and stable. -/
def InvP (s : AppState) : Prop :=
  s.current_q = some (currentIdx s)
  ∧ s.answers.length = currentIdx s
  ∧ currentIdx s ≤ s.questions.length
  ∧ s.questions ≠ []

/-- Every event preserves the attempt invariant. -/
theorem applyEvent_preserves_InvP (e : AEvent) (s : AppState) (h : InvP s) :
    InvP (applyEvent e s) := by
  obtain ⟨hq, hlen, hle, hne⟩ := h
  by_cases hen : eventEnabled s e = true
  · obtain ⟨d1, d2, d3⟩ := applyEvent_delta hen
    have hlt : currentIdx s < s.questions.length := by
      cases e with
      | submit text now resp =>
        unfold eventEnabled at hen
        rw [Option.isSome_iff_exists] at hen
        obtain ⟨i, hip⟩ := hen
        obtain ⟨hq2, hl2⟩ := inProgress_eq_some hip
        have : currentIdx s = i := by rw [currentIdx, hq2]; rfl
        rw [this]; exact hl2
      | skip now =>
        unfold eventEnabled at hen
        rw [Option.isSome_iff_exists] at hen
        obtain ⟨i, hip⟩ := hen
        obtain ⟨hq2, hl2⟩ := inProgress_eq_some hip
        have : currentIdx s = i := by rw [currentIdx, hq2]; rfl
        rw [this]; exact hl2
      | timeout draft now resp =>
        unfold eventEnabled at hen
        rw [Bool.and_eq_true, Option.isSome_iff_exists] at hen
        obtain ⟨⟨i, hip⟩, _⟩ := hen
        obtain ⟨hq2, hl2⟩ := inProgress_eq_some hip
        have : currentIdx s = i := by rw [currentIdx, hq2]; rfl
        rw [this]; exact hl2
    have hidx2 : currentIdx (applyEvent e s) = currentIdx s + 1 := by
      rw [currentIdx, d2]; rfl
    refine ⟨by rw [d2, hidx2], by rw [d1, hidx2, hlen], ?_, by rw [d3]; exact hne⟩
    rw [hidx2, d3]
    omega
  · rw [applyEvent_noop (Bool.eq_false_iff.mpr hen)]
    exact ⟨hq, hlen, hle, hne⟩

/-- Running any event sequence preserves the attempt invariant. -/
theorem runEvents_preserves_InvP (es : List AEvent) :
    ∀ s : AppState, InvP s → InvP (runEvents es s) := by
  induction es with
  | nil => intro s h; exact h
  | cons e rest ih =>
    intro s h
    have hstep : runEvents (e :: rest) s = runEvents rest (applyEvent e s) := rfl
    rw [hstep]
    exact ih _ (applyEvent_preserves_InvP e s h)

/-- Every bank of `QUESTION_CATEGORIES` is non-empty. -/
theorem bank_ne_nil {p : String × List String} (hp : p ∈ QUESTION_CATEGORIES) :
    p.2 ≠ [] := by
  simp only [QUESTION_CATEGORIES, List.mem_cons, List.not_mem_nil, or_false] at hp
  rcases hp with h | h | h | h <;> rw [h] <;> simp [generalBank, technicalBank,
    behavioralBank, problemSolvingBank]

/-- Start establishes the attempt invariant when the shuffled list is a
permutation of one of the category banks and the question count is one of the
selectbox options. -/
theorem startInterview_InvP (shuffled : List String) (now : Nat) (s : AppState)
    (hbank : ∃ p ∈ QUESTION_CATEGORIES, shuffled.Perm p.2)
    (hn : s.num_questions ∈ [3, 5, 7, 10]) :
    InvP (startInterview shuffled now s) := by
  obtain ⟨p, hp, hperm⟩ := hbank
  have hsh : shuffled ≠ [] := by
    intro hcon
    have h0 : p.2.length = 0 := by
      rw [← hperm.length_eq, hcon]
      rfl
    exact bank_ne_nil hp (List.length_eq_zero.mp h0)
  have hn0 : s.num_questions ≠ 0 := by
    simp only [List.mem_cons, List.not_mem_nil, or_false] at hn
    rcases hn with h | h | h | h <;> omega
  refine ⟨rfl, rfl, by simp [startInterview, currentIdx], ?_⟩
  show shuffled.take s.num_questions ≠ []
  rw [Ne, List.take_eq_nil_iff]
  push_neg
  exact ⟨hn0, hsh⟩

/-- After the attempt invariant, the completed-results branch is taken iff the
index equals the question count. -/
theorem completedBranch_iff_of_InvP {s : AppState} (h : InvP s) :
    completedBranch s = true ↔ currentIdx s = s.questions.length := by
  obtain ⟨hq, hlen, hle, hne⟩ := h
  unfold completedBranch
  rw [hq]
  simp only [Bool.and_eq_true, decide_eq_true_eq, Bool.not_eq_true']
  constructor
  · rintro ⟨h1, _⟩
    exact Nat.le_antisymm hle h1
  · intro h1
    refine ⟨Nat.le_of_eq h1.symm, ?_⟩
    rw [List.isEmpty_eq_false_iff_exists_mem]
    have hpos : 0 < s.answers.length := by
      rw [hlen, h1]
      exact List.length_pos.mpr hne
    obtain ⟨a, ha⟩ := List.exists_mem_of_length_pos hpos
    exact ⟨a, ha⟩

/-- Claim C4: from a started attempt, every enabled Submit/Skip/Auto-advance
transition appends exactly one answer record and advances `current_q` by
exactly one; after any sequence of such transitions `len(answers) ==
current_q` holds, and the session renders the Completed screen iff
`current_q == len(questions)`. -/
theorem C4_answer_index_invariant (s0 : AppState) (shuffled : List String) (now : Nat)
    (es : List AEvent)
    (hbank : ∃ p ∈ QUESTION_CATEGORIES, shuffled.Perm p.2)
    (hn : s0.num_questions ∈ [3, 5, 7, 10]) :
    ((runEvents es (startInterview shuffled now s0)).answers.length
        = currentIdx (runEvents es (startInterview shuffled now s0)))
  ∧ (completedBranch (runEvents es (startInterview shuffled now s0)) = true
        ↔ currentIdx (runEvents es (startInterview shuffled now s0))
            = (runEvents es (startInterview shuffled now s0)).questions.length)
  ∧ (∀ (t : AppState) (e : AEvent), eventEnabled t e = true →
        (applyEvent e t).answers.length = t.answers.length + 1
        ∧ (applyEvent e t).current_q = some (currentIdx t + 1)) := by
  have hinv := runEvents_preserves_InvP es _ (startInterview_InvP shuffled now s0 hbank hn)
  exact ⟨hinv.2.1, completedBranch_iff_of_InvP hinv,
    fun t e h => ⟨(applyEvent_delta h).1, (applyEvent_delta h).2.1⟩⟩

/-- Witness for C4: a concrete started attempt with one Submit and one Skip. -/
theorem C4_answer_index_invariant_witness :
    (runEvents [AEvent.submit "I am Alex." 5 (Except.ok "Alex"), AEvent.skip 9]
        (startInterview generalBank 0 initState)).answers.length
      = currentIdx (runEvents [AEvent.submit "I am Alex." 5 (Except.ok "Alex"), AEvent.skip 9]
        (startInterview generalBank 0 initState)) :=
  (C4_answer_index_invariant initState generalBank 0
    [AEvent.submit "I am Alex." 5 (Except.ok "Alex"), AEvent.skip 9]
    ⟨("General", generalBank), by simp [QUESTION_CATEGORIES], List.Perm.refl _⟩
    (by simp [initState])).1

/-! ## Claim C6: name extraction post-processing and at-most-once triggering -/

/-- The answer text an event would record (Skip always records `""`). -/
def eventText : AEvent → Option String
  | .submit text _ _ => some text
  | .skip _ => none
  | .timeout draft _ _ => some draft

/-- An extraction-performing event runs at question index 0 on a text whose
strip is non-empty. -/
theorem extractsIn_spec {s : AppState} {e : AEvent} (h : extractsIn s e = true) :
    inProgress s = some 0
  ∧ currentIdx s = 0
  ∧ ∃ txt, eventText e = some txt ∧ pyStrip txt ≠ "" := by
  cases e with
  | submit text now resp =>
    unfold extractsIn at h
    rw [Bool.and_eq_true, beq_iff_eq, decide_eq_true_eq] at h
    obtain ⟨hip, hne⟩ := h
    refine ⟨hip, ?_, text, rfl, hne⟩
    rw [currentIdx, (inProgress_eq_some hip).1]
    rfl
  | skip now => simp [extractsIn] at h
  | timeout draft now resp =>
    unfold extractsIn at h
    rw [Bool.and_eq_true, Bool.and_eq_true, beq_iff_eq, decide_eq_true_eq] at h
    obtain ⟨⟨hip, hfi⟩, hne⟩ := h
    refine ⟨hip, ?_, draft, rfl, hne⟩
    rw [currentIdx, (inProgress_eq_some hip).1]
    rfl

/-- After an extraction-performing event, the session is on question 1. -/
theorem applyEvent_extract_post {s : AppState} {e : AEvent} (h : extractsIn s e = true) :
    (applyEvent e s).current_q = some 1 := by
  cases e with
  | submit text now resp =>
    unfold extractsIn at h
    rw [Bool.and_eq_true, beq_iff_eq] at h
    rw [applyEvent_submit_eq h.1, (submitAnswer_proj 0 text now resp s).2.1]
  | skip now => simp [extractsIn] at h
  | timeout draft now resp =>
    unfold extractsIn at h
    rw [Bool.and_eq_true, Bool.and_eq_true, beq_iff_eq] at h
    rw [applyEvent_timeout_eq h.1.1, if_pos h.1.2,
      (timeoutAdvance_proj 0 draft now resp s).2.1]

/-- Once the attempt has moved past question 0, no event extracts a name. -/
theorem extractsIn_false_of_pos {s : AppState} {i : Nat} (hq : s.current_q = some i)
    (hi : 1 ≤ i) (e : AEvent) : extractsIn s e = false := by
  have hne : inProgress s ≠ some 0 := by
    intro hcon
    have h0 : s.current_q = some 0 := (inProgress_eq_some hcon).1
    rw [hq] at h0
    injection h0 with h0
    omega
  have hbeq : (inProgress s == some 0) = false := by
    rw [beq_eq_false_iff_ne]
    exact hne
  cases e with
  | submit text now resp => simp [extractsIn, hbeq]
  | skip now => rfl
  | timeout draft now resp => simp [extractsIn, hbeq]

/-- Events never move the index backwards. -/
theorem applyEvent_idx_ge {s : AppState} {i : Nat} (hq : s.current_q = some i)
    (e : AEvent) : ∃ j, (applyEvent e s).current_q = some j ∧ i ≤ j := by
  by_cases hen : eventEnabled s e = true
  · obtain ⟨_, d2, _⟩ := applyEvent_delta hen
    refine ⟨currentIdx s + 1, d2, ?_⟩
    rw [currentIdx, hq]
    exact Nat.le_succ i
  · rw [applyEvent_noop (Bool.eq_false_iff.mpr hen)]
    exact ⟨i, hq, Nat.le_refl i⟩

/-- From question 1 onwards, no event sequence ever extracts a name. -/
theorem extractCount_zero_of_pos (es : List AEvent) :
    ∀ (s : AppState) (i : Nat), s.current_q = some i → 1 ≤ i → extractCount es s = 0 := by
  induction es with
  | nil => intro s i _ _; rfl
  | cons e rest ih =>
    intro s i hq hi
    show (if extractsIn s e then 1 else 0) + extractCount rest (applyEvent e s) = 0
    obtain ⟨j, hj, hij⟩ := applyEvent_idx_ge hq e
    rw [extractsIn_false_of_pos hq hi e]
    simp only [Bool.false_eq_true, if_false, Nat.zero_add]
    exact ih _ _ hj (Nat.le_trans hi hij)

/-- From question 0, any event sequence extracts a name at most once. -/
theorem extractCount_le_one_of_idx_zero (es : List AEvent) :
    ∀ s : AppState, s.current_q = some 0 → extractCount es s ≤ 1 := by
  induction es with
  | nil => intro s _; exact Nat.zero_le 1
  | cons e rest ih =>
    intro s h0
    show (if extractsIn s e then 1 else 0) + extractCount rest (applyEvent e s) ≤ 1
    by_cases hx : extractsIn s e = true
    · rw [hx]
      have h1 : (applyEvent e s).current_q = some 1 := applyEvent_extract_post hx
      rw [extractCount_zero_of_pos rest _ 1 h1 (Nat.le_refl 1)]
      simp
    · rw [Bool.eq_false_iff.mpr hx]
      simp only [Bool.false_eq_true, if_false, Nat.zero_add]
      by_cases hen : eventEnabled s e = true
      · obtain ⟨_, d2, _⟩ := applyEvent_delta hen
        have hcz : currentIdx s = 0 := by rw [currentIdx, h0]; rfl
        rw [hcz] at d2
        rw [extractCount_zero_of_pos rest _ 1 d2 (Nat.le_refl 1)]
        exact Nat.zero_le 1
      · rw [applyEvent_noop (Bool.eq_false_iff.mpr hen)]
        exact ih s h0

/-- Claim C6: `extract_name` returns the fixed placeholder "Candidate" on a
blank first answer, on an extractor exception, on an empty response, and on a
response of more than two words; on an accepted response it returns the
title-cased, letters-and-hyphens-only cleanup of at most the first
whitespace token (placeholder when that cleanup is empty).  In the session
machine, extraction is attempted at most once per attempt, only at question
index 0, only on a text with non-blank strip, and its result is what is stored
in `candidate_name`. -/
theorem C6_name_extraction (s0 : AppState) (shuffled : List String) (now : Nat) :
    (∀ text resp, pyStrip text = "" → extract_name text resp = "Candidate")
  ∧ (∀ text, extract_name text (Except.error ()) = "Candidate")
  ∧ (∀ text, extract_name text (Except.ok "") = "Candidate")
  ∧ (∀ text name, 2 < (pySplit name).length →
        extract_name text (Except.ok name) = "Candidate")
  ∧ (∀ text name w ws, pyStrip text ≠ "" → name ≠ "" → pySplit name = w :: ws →
        ws.length + 1 ≤ 2 →
        extract_name text (Except.ok name)
          = (if cleanTok w = "" then "Candidate" else pyTitle (cleanTok w)))
  ∧ (∀ es, extractCount es (startInterview shuffled now s0) ≤ 1)
  ∧ (∀ (t : AppState) (e : AEvent), extractsIn t e = true →
        currentIdx t = 0 ∧ ∃ txt, eventText e = some txt ∧ pyStrip txt ≠ "")
  ∧ (∀ (t : AppState) (text : String) (nowe : Nat) (resp : Except Unit String),
        extractsIn t (AEvent.submit text nowe resp) = true →
        (applyEvent (AEvent.submit text nowe resp) t).candidate_name
          = some (extract_name text resp)) := by
  refine ⟨?_, ?_, ?_, ?_, ?_, ?_, ?_, ?_⟩
  · intro text resp h
    unfold extract_name
    rw [if_pos h]
  · intro text
    by_cases h : pyStrip text = "" <;> simp [extract_name, h]
  · intro text
    by_cases h : pyStrip text = "" <;> simp [extract_name, h]
  · intro text name hlen
    rcases hsp : pySplit name with _ | ⟨w, ws⟩
    · rw [hsp] at hlen
      simp at hlen
    · by_cases hs : pyStrip text = ""
      · simp [extract_name, hs]
      · by_cases hn : name = ""
        · simp [extract_name, hs, hn]
        · have hgt : ¬ (ws.length + 1 ≤ 2) := by
            rw [hsp, List.length_cons] at hlen
            omega
          simp [extract_name, hs, hn, hsp, hgt]
  · intro text name w ws hs hn hsp hle
    simp [extract_name, hs, hn, hsp, hle]
  · intro es
    exact extractCount_le_one_of_idx_zero es _ rfl
  · intro t e h
    exact ⟨(extractsIn_spec h).2.1, (extractsIn_spec h).2.2⟩
  · intro t text nowe resp h
    unfold extractsIn at h
    rw [Bool.and_eq_true, beq_iff_eq, decide_eq_true_eq] at h
    rw [applyEvent_submit_eq h.1]
    unfold submitAnswer
    simp [h.2]

/-- Witness for C6: concrete extraction outcomes and a concrete trace with a
single extraction. -/
theorem C6_name_extraction_witness :
    extract_name "   " (Except.ok "Bob") = "Candidate"
  ∧ extract_name "I am Bob." (Except.error ()) = "Candidate"
  ∧ extract_name "I am Bob." (Except.ok "bob marley the third") = "Candidate"
  ∧ extract_name "I am jean-paul." (Except.ok "jean-paul") = "Jean-Paul"
  ∧ extractCount [AEvent.submit "I am Bob." 4 (Except.ok "Bob"), AEvent.skip 9]
      (startInterview generalBank 0 initState) ≤ 1 := by
  refine ⟨(C6_name_extraction initState generalBank 0).1 "   " (Except.ok "Bob") (by decide),
    (C6_name_extraction initState generalBank 0).2.1 "I am Bob.",
    (C6_name_extraction initState generalBank 0).2.2.2.1 "I am Bob." "bob marley the third"
      (by decide),
    ?_,
    (C6_name_extraction initState generalBank 0).2.2.2.2.2.1
      [AEvent.submit "I am Bob." 4 (Except.ok "Bob"), AEvent.skip 9]⟩
  have h := (C6_name_extraction initState generalBank 0).2.2.2.2.1 "I am jean-paul."
    "jean-paul" "jean-paul" [] (by decide) (by decide) (by decide) (by decide)
  rw [h, if_neg (by decide)]
  decide
